import Mathlib

/-!
Shallow embedding of the logging and shutdown subsystems of go-gin-api
(src/pkg/logger/logger.go: package logger and package shutdown, plus their
use in src/main.go), together with theorems checking the natural-language
specification against this embedding.

Severity levels follow zapcore.Level ranks (Debug = -1 .. Fatal = 5).
Filesystem effects (filepath.Dir, os.MkdirAll, os.OpenFile) are modelled by
an explicit environment `FS`; a Go panic in an option constructor is
modelled as `Except.error`.
-/

namespace GoGinApi

/-- zapcore.Level: the ordered severity set used by the logger. -/
inductive Level where
  | debug
  | info
  | warn
  | error
  | dpanicL
  | panicL
  | fatal
deriving DecidableEq

/-- Numeric rank of a zapcore.Level (DebugLevel = -1, InfoLevel = 0, ...). -/
def Level.rank : Level → Int
  | .debug => -1
  | .info => 0
  | .warn => 1
  | .error => 2
  | .dpanicL => 3
  | .panicL => 4
  | .fatal => 5

instance : LE Level := ⟨fun a b => a.rank ≤ b.rank⟩

instance : LT Level := ⟨fun a b => a.rank < b.rank⟩

instance : DecidableRel ((· ≤ ·) : Level → Level → Prop) :=
  fun a b => inferInstanceAs (Decidable (a.rank ≤ b.rank))

instance : DecidableRel ((· < ·) : Level → Level → Prop) :=
  fun a b => inferInstanceAs (Decidable (a.rank < b.rank))

theorem Level.le_def {a b : Level} : a ≤ b ↔ a.rank ≤ b.rank := Iff.rfl

theorem Level.lt_def {a b : Level} : a < b ↔ a.rank < b.rank := Iff.rfl

/-- lumberjack.Logger: the rotating-file writer configuration. -/
structure lumberjackLogger where
  filename : String
  maxSize : Nat
  maxBackups : Nat
  maxAge : Nat
  localTime : Bool
  compress : Bool
deriving DecidableEq

/-- The io.Writer stored in option.file: either a zapcore.Lock-wrapped
*os.File opened by WithFileP, or a *lumberjack.Logger built by
WithFileRotationP. -/
inductive FileWriter where
  | lockedFile (path : String)
  | lumberjack (cfg : lumberjackLogger)
deriving DecidableEq

/-- The logger package's private `option` struct mutated by Option values.
The Go map[string]string of static fields is modelled as a lookup
function. -/
structure option where
  level : Level
  fields : String → Option String
  file : Option FileWriter
  timeLayout : String
  disableConsole : Bool

/-- DefaultLevel = zapcore.InfoLevel. -/
def DefaultLevel : Level := Level.info

/-- DefaultTimeLayout = time.RFC3339. -/
def DefaultTimeLayout : String := "2006-01-02T15:04:05Z07:00"

/-- Go map assignment m[k] = v on the modelled field map. -/
def mapAssign (m : String → Option String) (k v : String) : String → Option String :=
  fun x => if x = k then some v else m x

/-- WithDebugLevel. -/
def WithDebugLevel : option → option :=
  fun opt => { opt with level := Level.debug }

/-- WithInfoLevel. -/
def WithInfoLevel : option → option :=
  fun opt => { opt with level := Level.info }

/-- WithWarnLevel. -/
def WithWarnLevel : option → option :=
  fun opt => { opt with level := Level.warn }

/-- WithErrorLevel. -/
def WithErrorLevel : option → option :=
  fun opt => { opt with level := Level.error }

/-- WithField key value: opt.fields[key] = value. -/
def WithField (key value : String) : option → option :=
  fun opt => { opt with fields := mapAssign opt.fields key value }

/-- WithTimeLayout. -/
def WithTimeLayout (timeLayout : String) : option → option :=
  fun opt => { opt with timeLayout := timeLayout }

/-- WithDisableConsole. -/
def WithDisableConsole : option → option :=
  fun opt => { opt with disableConsole := true }

/-- Filesystem environment: filepath.Dir plus the success or failure of
os.MkdirAll and os.OpenFile at each path. -/
structure FS where
  dir : String → String
  mkdirAllOk : String → Bool
  openFileOk : String → Bool

/-- WithFileP: computes filepath.Dir(file), runs os.MkdirAll (panicking on
failure, modelled as Except.error), opens the file in create-or-append mode
(panicking on failure), and returns the option setter storing the
Lock-wrapped file. -/
def WithFileP (fs : FS) (file : String) : Except String (option → option) :=
  if fs.mkdirAllOk (fs.dir file) = false then Except.error "MkdirAll failed"
  else if fs.openFileOk file = false then Except.error "OpenFile failed"
  else Except.ok (fun opt => { opt with file := some (FileWriter.lockedFile file) })

/-- WithFileRotationP: computes filepath.Dir(file), runs os.MkdirAll
(panicking on failure), and returns the setter storing a lumberjack.Logger
with the hard-coded policy MaxSize 128, MaxBackups 300, MaxAge 30,
LocalTime true, Compress true. -/
def WithFileRotationP (fs : FS) (file : String) : Except String (option → option) :=
  if fs.mkdirAllOk (fs.dir file) = false then Except.error "MkdirAll failed"
  else Except.ok (fun opt =>
    { opt with file := some (FileWriter.lumberjack
        { filename := file
          maxSize := 128
          maxBackups := 300
          maxAge := 30
          localTime := true
          compress := true }) })

/-- The initial option record built at the top of NewJSONLogger:
level defaults to DefaultLevel, fields to an empty map. -/
def defaultOption : option :=
  { level := DefaultLevel
    fields := fun _ => none
    file := none
    timeLayout := ""
    disableConsole := false }

/-- The `for _, f := range opts { f(opt) }` loop of NewJSONLogger. -/
def applyOpts (opts : List (option → option)) (opt : option) : option :=
  opts.foldl (fun o f => f o) opt

/-- A delivery destination registered in the zapcore.NewTee core. -/
inductive Sink where
  | stdout
  | stderr
  | file (w : FileWriter)
deriving DecidableEq

/-- The observable part of the assembled *zap.Logger: the tee of
(sink, level-enabler) cores, the static fields added via zap.Fields, and
the time layout baked into the JSON encoder. -/
structure ZapLogger where
  core : List (Sink × (Level → Bool))
  fields : String → Option String
  timeLayout : String

/-- NewJSONLogger: applies the options in order, resolves the time layout,
builds lowPriority / highPriority console enablers and the open-ended file
enabler, tees the cores (console cores first, then the file core), and
returns the logger together with a nil error. -/
def NewJSONLogger (opts : List (option → option)) : ZapLogger × Option String :=
  let opt := applyOpts opts defaultOption
  let timeLayout := if opt.timeLayout ≠ "" then opt.timeLayout else DefaultTimeLayout
  let lowPriority : Level → Bool := fun lvl =>
    decide (opt.level ≤ lvl) && decide (lvl < Level.error)
  let highPriority : Level → Bool := fun lvl =>
    decide (opt.level ≤ lvl) && decide (Level.error ≤ lvl)
  let consoleCores : List (Sink × (Level → Bool)) :=
    if opt.disableConsole then []
    else [(Sink.stdout, lowPriority), (Sink.stderr, highPriority)]
  let fileCores : List (Sink × (Level → Bool)) :=
    match opt.file with
    | none => []
    | some w => [(Sink.file w, fun lvl => decide (opt.level ≤ lvl))]
  ({ core := consoleCores ++ fileCores
     fields := opt.fields
     timeLayout := timeLayout }, none)

/-- The sinks a record of severity lvl is delivered to: every tee leaf
whose enabler accepts lvl. -/
def deliversTo (lg : ZapLogger) (lvl : Level) : List Sink :=
  (lg.core.filter (fun p => p.2 lvl)).map Prod.fst

/-- main.go calls NewJSONLogger(opts..., WithFileP(path)): the file option
constructor runs first and a panic there aborts construction before
NewJSONLogger is entered. -/
def NewJSONLoggerWithFileP (fs : FS) (opts : List (option → option)) (file : String) :
    Except String (ZapLogger × Option String) :=
  (WithFileP fs file).map (fun setter => NewJSONLogger (opts ++ [setter]))

/-- Construction through the rotating-file option, same shape as
NewJSONLoggerWithFileP. -/
def NewJSONLoggerWithFileRotationP (fs : FS) (opts : List (option → option)) (file : String) :
    Except String (ZapLogger × Option String) :=
  (WithFileRotationP fs file).map (fun setter => NewJSONLogger (opts ++ [setter]))

/-- The rotation policy of a lumberjack configuration:
(MaxSize, MaxBackups, MaxAge, Compress). -/
def rotationParams (c : lumberjackLogger) : Nat × Nat × Nat × Bool :=
  (c.maxSize, c.maxBackups, c.maxAge, c.compress)

/-- Modelled from the spec: the build-time option
`fileSinkRotate(path, maxSizeMB, maxBackups, maxAgeDays, compress)` is
described as accepting the rotation parameters from the caller; this
definition realizes that interface literally, for comparison with the
code's WithFileRotationP (which takes only the path). -/
def fileSinkRotateSpec (path : String) (maxSizeMB maxBackups maxAgeDays : Nat)
    (compress : Bool) : lumberjackLogger :=
  { filename := path
    maxSize := maxSizeMB
    maxBackups := maxBackups
    maxAge := maxAgeDays
    localTime := true
    compress := compress }

/-- A concrete filesystem on which every directory creation and file open
succeeds. -/
def okFS : FS :=
  { dir := fun _ => "."
    mkdirAllOk := fun _ => true
    openFileOk := fun _ => true }

/-- A concrete filesystem on which every directory creation fails. -/
def badFS : FS :=
  { dir := fun _ => "."
    mkdirAllOk := fun _ => false
    openFileOk := fun _ => true }

/-- The `meta` struct of the logger package: an immutable key/value pair.
The interface value is modelled by a type parameter. -/
structure meta (α : Type) where
  key : String
  value : α

/-- meta.Key(). -/
def meta.Key {α : Type} (m : meta α) : String := m.key

/-- meta.Value(). -/
def meta.Value {α : Type} (m : meta α) : α := m.value

/-- NewMeta key value. -/
def NewMeta {α : Type} (key : String) (value : α) : meta α :=
  { key := key, value := value }

/-- A zap.Field as produced in WrapMeta: zap.Error(err), the
zap.Namespace("meta") marker, or zap.Any(key, value). A nil Go error is
modelled as `none` at the call site, so the error field carries the
non-nil error's message. -/
inductive Field (α : Type) where
  | err (msg : String)
  | nspace (key : String)
  | any (key : String) (value : α)
deriving DecidableEq

/-- WrapMeta err metas: starts from an empty field slice, appends
zap.Error(err) when err is non-nil, appends zap.Namespace("meta"), then
loops over the metas appending zap.Any(meta.Key(), meta.Value()). -/
def WrapMeta {α : Type} (err : Option String) (metas : List (meta α)) : List (Field α) :=
  let fields : List (Field α) := []
  let fields := match err with
    | some e => fields ++ [Field.err e]
    | none => fields
  let fields := fields ++ [Field.nspace "meta"]
  metas.foldl (fun fs m => fs ++ [Field.any m.Key m.Value]) fields

/-- An observable event of the shutdown package: receiving a signal from
the channel, signal.Stop withdrawing the registration, or invoking the
i-th callback. -/
inductive Event (Sig : Type) where
  | recv (s : Sig)
  | stopNotify
  | callback (i : Nat)
deriving DecidableEq

/-- Whether an event is a signal receipt. -/
def Event.isRecv {Sig : Type} : Event Sig → Bool
  | .recv _ => true
  | _ => false

/-- The shutdown package's `hook` struct: the set of signals passed to
signal.Notify and the single-slot buffered channel ctx. -/
structure hookT (Sig : Type) where
  registered : List Sig
  ctx : Option Sig

/-- hook.WithSignals: registers additional signals via signal.Notify. -/
def WithSignals {Sig : Type} (h : hookT Sig) (signals : List Sig) : hookT Sig :=
  { h with registered := h.registered ++ signals }

/-- NewHook: fresh hook with an empty buffered channel, then
WithSignals(SIGINT, SIGTERM). -/
def NewHook {Sig : Type} (sigint sigterm : Sig) : hookT Sig :=
  WithSignals { registered := [], ctx := none } [sigint, sigterm]

/-- OS-side signal delivery to the Notify channel: a signal lands in the
single-slot channel only if it is registered and the slot is free
(an unbuffered-overflow signal is dropped; an unregistered one is never
seen by this hook). -/
def deliver {Sig : Type} [DecidableEq Sig] (h : hookT Sig) (s : Sig) : hookT Sig :=
  if s ∈ h.registered ∧ h.ctx = none then { h with ctx := some s } else h

/-- hook.Close with n callbacks: the select blocks (no trace yet) while
the channel is empty; once a signal is buffered, it is received, then
signal.Stop runs, then the callbacks run in order on the calling thread.
The result is the event trace of one Close invocation, `none` while it is
still blocked. -/
def Close {Sig : Type} (h : hookT Sig) (n : Nat) : Option (List (Event Sig)) :=
  match h.ctx with
  | none => none
  | some s =>
    some (Event.recv s :: Event.stopNotify ::
      ((List.range n).foldl (fun tr i => tr ++ [Event.callback i]) []))

/-! ## Helper lemmas -/

theorem foldl_push_eq_append_map {α β : Type} (g : α → β) (l : List α) (init : List β) :
    l.foldl (fun fs m => fs ++ [g m]) init = init ++ l.map g := by
  induction l generalizing init with
  | nil => simp
  | cons m ms ih => simp [List.foldl_cons, ih]

theorem Level.le_trans_lt {a b c : Level} (h1 : a ≤ b) (h2 : b < c) : a ≤ c := by
  have g1 : a.rank ≤ b.rank := h1
  have g2 : b.rank < c.rank := h2
  show a.rank ≤ c.rank
  omega

/-- Membership characterization of routing: which sinks of a built logger
receive a record of severity S. -/
theorem mem_deliversTo (opts : List (option → option)) (S : Level) (s : Sink) :
    s ∈ deliversTo (NewJSONLogger opts).1 S ↔
      ((s = Sink.stdout ∧ (applyOpts opts defaultOption).disableConsole = false ∧
          (applyOpts opts defaultOption).level ≤ S ∧ S < Level.error) ∨
       (s = Sink.stderr ∧ (applyOpts opts defaultOption).disableConsole = false ∧
          (applyOpts opts defaultOption).level ≤ S ∧ Level.error ≤ S) ∨
       (∃ w, s = Sink.file w ∧ (applyOpts opts defaultOption).file = some w ∧
          (applyOpts opts defaultOption).level ≤ S)) := by
  cases hdc : (applyOpts opts defaultOption).disableConsole <;>
    cases hf : (applyOpts opts defaultOption).file <;>
      (simp [deliversTo, NewJSONLogger, hdc, hf, List.mem_filter, List.mem_map,
        and_assoc] <;> aesop)

/-! ## Claim theorems -/

/-- C1: for every logger built by NewJSONLogger with console output
enabled and severity floor L, a record of severity S is delivered to the
stdout sink iff S lies in the half-open band [L, Error), to the stderr
sink iff S ≥ L and S ≥ Error, and, when a file option is given, to the
file sink iff S ≥ L with no upper bound. -/
theorem c1_console_bands_file_open_ended (opts : List (option → option)) (L S : Level)
    (hL : (applyOpts opts defaultOption).level = L)
    (hc : (applyOpts opts defaultOption).disableConsole = false) :
    (Sink.stdout ∈ deliversTo (NewJSONLogger opts).1 S ↔ (L ≤ S ∧ S < Level.error)) ∧
    (Sink.stderr ∈ deliversTo (NewJSONLogger opts).1 S ↔ (L ≤ S ∧ Level.error ≤ S)) ∧
    (∀ w, (applyOpts opts defaultOption).file = some w →
      (Sink.file w ∈ deliversTo (NewJSONLogger opts).1 S ↔ L ≤ S)) := by
  subst hL
  refine ⟨?_, ?_, fun w hw => ?_⟩
  · simp [mem_deliversTo, hc]
  · simp [mem_deliversTo, hc]
  · simp [mem_deliversTo, hc, hw]

/-- Witness for C1 at opts = [WithWarnLevel], S = Warn. -/
theorem c1_console_bands_file_open_ended_witness :
    (Sink.stdout ∈ deliversTo (NewJSONLogger [WithWarnLevel]).1 Level.warn ↔
      (Level.warn ≤ Level.warn ∧ Level.warn < Level.error)) ∧
    (Sink.stderr ∈ deliversTo (NewJSONLogger [WithWarnLevel]).1 Level.warn ↔
      (Level.warn ≤ Level.warn ∧ Level.error ≤ Level.warn)) ∧
    (∀ w, (applyOpts [WithWarnLevel] defaultOption).file = some w →
      (Sink.file w ∈ deliversTo (NewJSONLogger [WithWarnLevel]).1 Level.warn ↔
        Level.warn ≤ Level.warn)) :=
  c1_console_bands_file_open_ended [WithWarnLevel] Level.warn Level.warn rfl rfl

/-- C6: WrapMeta prepends an error field exactly when err is non-nil,
then emits a single namespace field keyed "meta", then the
(Key(mi), Value(mi)) fields in the given meta order; the result has
length n+1 when err is nil and n+2 otherwise. -/
theorem c6_wrapMeta_shape {α : Type} (err : Option String) (metas : List (meta α)) :
    WrapMeta err metas =
      (match err with
        | some e => [Field.err e]
        | none => ([] : List (Field α))) ++
        Field.nspace "meta" :: metas.map (fun m => Field.any m.Key m.Value) ∧
    (WrapMeta err metas).length =
      (match err with
        | some _ => metas.length + 2
        | none => metas.length + 1) := by
  cases err <;>
    refine ⟨by simp [WrapMeta, foldl_push_eq_append_map], ?_⟩ <;>
      (simp [WrapMeta, foldl_push_eq_append_map]; try omega)

/-- C8: with no options, the severity floor defaults to Info, the time
layout defaults to the fixed RFC3339 layout, and console output is
enabled: both console sinks are registered, an Info record reaches stdout
and a Debug record does not. -/
theorem c8_defaults :
    DefaultLevel = Level.info ∧
    (applyOpts [] defaultOption).level = Level.info ∧
    (NewJSONLogger []).1.timeLayout = DefaultTimeLayout ∧
    DefaultTimeLayout = "2006-01-02T15:04:05Z07:00" ∧
    (applyOpts [] defaultOption).disableConsole = false ∧
    (NewJSONLogger []).1.core.map Prod.fst = [Sink.stdout, Sink.stderr] ∧
    Sink.stdout ∈ deliversTo (NewJSONLogger []).1 Level.info ∧
    Sink.stdout ∉ deliversTo (NewJSONLogger []).1 Level.debug := by
  refine ⟨rfl, rfl, by decide, rfl, rfl, by decide, by decide, by decide⟩

/-- C9: building with console disabled and no file option yields a valid
logger whose tee has zero sinks: the returned error is nil, the core is
empty, and every record is delivered to no sink. -/
theorem c9_zero_sinks_valid (opts : List (option → option))
    (hc : (applyOpts opts defaultOption).disableConsole = true)
    (hf : (applyOpts opts defaultOption).file = none) :
    (NewJSONLogger opts).2 = none ∧
    (NewJSONLogger opts).1.core = [] ∧
    ∀ lvl, deliversTo (NewJSONLogger opts).1 lvl = [] := by
  refine ⟨rfl, ?_, fun lvl => ?_⟩
  · simp [NewJSONLogger, hc, hf]
  · simp [deliversTo, NewJSONLogger, hc, hf]

/-- Witness for C9 at opts = [WithDisableConsole]. -/
theorem c9_zero_sinks_valid_witness :
    (NewJSONLogger [WithDisableConsole]).2 = none ∧
    (NewJSONLogger [WithDisableConsole]).1.core = [] ∧
    ∀ lvl, deliversTo (NewJSONLogger [WithDisableConsole]).1 lvl = [] :=
  c9_zero_sinks_valid [WithDisableConsole] rfl rfl

/-- C10: NewJSONLogger always returns a nil error, for every option list;
file-option failures surface as panics inside the option constructors
(modelled as Except.error from WithFileP), before NewJSONLogger runs. -/
theorem c10_error_always_nil (opts : List (option → option)) (fs : FS) (file : String) :
    (NewJSONLogger opts).2 = none ∧
    (fs.mkdirAllOk (fs.dir file) = false → ∃ e, WithFileP fs file = Except.error e) := by
  refine ⟨rfl, fun h => ⟨ "MkdirAll failed", ?_⟩⟩
  simp [WithFileP, h]

/-- Witness for C10 at opts = [] on a filesystem whose MkdirAll fails. -/
theorem c10_error_always_nil_witness :
    (NewJSONLogger []).2 = none ∧ ∃ e, WithFileP badFS "x.log" = Except.error e :=
  ⟨(c10_error_always_nil [] badFS "x.log").1,
   (c10_error_always_nil [] badFS "x.log").2 rfl⟩

/-- C5: if a file-destination option is supplied and the log directory
cannot be created or the log file cannot be opened, construction aborts
with the modelled panic and no Logger value is returned to the caller. -/
theorem c5_file_failure_fatal (fs : FS) (opts : List (option → option)) (file : String)
    (h : fs.mkdirAllOk (fs.dir file) = false ∨ fs.openFileOk file = false) :
    (∃ e, NewJSONLoggerWithFileP fs opts file = Except.error e) ∧
    (fs.mkdirAllOk (fs.dir file) = false →
      ∃ e, NewJSONLoggerWithFileRotationP fs opts file = Except.error e) := by
  constructor
  · rcases h with h | h
    · exact ⟨ "MkdirAll failed", by simp [NewJSONLoggerWithFileP, WithFileP, Except.map, h]⟩
    · by_cases hm : fs.mkdirAllOk (fs.dir file) = false
      · exact ⟨ "MkdirAll failed", by simp [NewJSONLoggerWithFileP, WithFileP, Except.map, hm]⟩
      · exact ⟨ "OpenFile failed", by simp [NewJSONLoggerWithFileP, WithFileP, Except.map, hm, h]⟩
  · intro hm
    exact ⟨ "MkdirAll failed", by simp [NewJSONLoggerWithFileRotationP, WithFileRotationP, Except.map, hm]⟩

/-- Witness for C5 on a filesystem whose MkdirAll fails. -/
theorem c5_file_failure_fatal_witness :
    (∃ e, NewJSONLoggerWithFileP badFS [] "x.log" = Except.error e) ∧
    (badFS.mkdirAllOk (badFS.dir "x.log") = false →
      ∃ e, NewJSONLoggerWithFileRotationP badFS [] "x.log" = Except.error e) :=
  c5_file_failure_fatal badFS [] "x.log" (Or.inl rfl)

/-- C4 counterexample: in the default-built logger the stdout sink has
threshold Info, Warn < Error, the Warn record reaches stdout, and the
Error record does not, although Error ≥ Info: routing is not monotone for
the stdout sink and "reaches iff S ≥ T" fails there. -/
theorem c4_counterexample :
    Level.warn < Level.error ∧
    (applyOpts [] defaultOption).level ≤ Level.warn ∧
    (applyOpts [] defaultOption).level ≤ Level.error ∧
    Sink.stdout ∈ deliversTo (NewJSONLogger []).1 Level.warn ∧
    Sink.stdout ∉ deliversTo (NewJSONLogger []).1 Level.error := by
  decide

/-- C4 amended: with severity floor L, "reaches iff S ≥ threshold" and
monotonicity hold for the file sink (threshold L, no upper bound); the
stderr sink delivers iff S ≥ L and S ≥ Error and is monotone; the stdout
sink delivers exactly on the half-open band [L, Error), so for S1 < S2
monotonicity holds there only when S2 is still below Error. -/
theorem c4_amended_monotone (opts : List (option → option)) (L S1 S2 : Level)
    (hL : (applyOpts opts defaultOption).level = L)
    (hc : (applyOpts opts defaultOption).disableConsole = false)
    (h12 : S1 < S2) :
    (∀ w, (applyOpts opts defaultOption).file = some w →
      ((Sink.file w ∈ deliversTo (NewJSONLogger opts).1 S1 ↔ L ≤ S1) ∧
       (Sink.file w ∈ deliversTo (NewJSONLogger opts).1 S1 →
         Sink.file w ∈ deliversTo (NewJSONLogger opts).1 S2))) ∧
    ((Sink.stderr ∈ deliversTo (NewJSONLogger opts).1 S1 ↔
        (L ≤ S1 ∧ Level.error ≤ S1)) ∧
     (Sink.stderr ∈ deliversTo (NewJSONLogger opts).1 S1 →
       Sink.stderr ∈ deliversTo (NewJSONLogger opts).1 S2)) ∧
    ((Sink.stdout ∈ deliversTo (NewJSONLogger opts).1 S1 ↔
        (L ≤ S1 ∧ S1 < Level.error)) ∧
     (S2 < Level.error →
       Sink.stdout ∈ deliversTo (NewJSONLogger opts).1 S1 →
       Sink.stdout ∈ deliversTo (NewJSONLogger opts).1 S2)) := by
  subst hL
  refine ⟨fun w hw => ⟨by simp [mem_deliversTo, hc, hw], ?_⟩,
    ⟨by simp [mem_deliversTo, hc], ?_⟩, ⟨by simp [mem_deliversTo, hc], ?_⟩⟩
  · intro hmem
    simp [mem_deliversTo, hw] at hmem ⊢
    exact Level.le_trans_lt hmem h12
  · intro hmem
    simp [mem_deliversTo, hc] at hmem ⊢
    exact ⟨Level.le_trans_lt hmem.1 h12, Level.le_trans_lt hmem.2 h12⟩
  · intro h2 hmem
    simp [mem_deliversTo, hc] at hmem ⊢
    exact ⟨Level.le_trans_lt hmem.1 h12, h2⟩

/-- Witness for the amended C4 at opts = [], L = Info, S1 = Info,
S2 = Warn. -/
theorem c4_amended_monotone_witness :
    (∀ w, (applyOpts [] defaultOption).file = some w →
      ((Sink.file w ∈ deliversTo (NewJSONLogger []).1 Level.info ↔
          Level.info ≤ Level.info) ∧
       (Sink.file w ∈ deliversTo (NewJSONLogger []).1 Level.info →
         Sink.file w ∈ deliversTo (NewJSONLogger []).1 Level.warn))) ∧
    ((Sink.stderr ∈ deliversTo (NewJSONLogger []).1 Level.info ↔
        (Level.info ≤ Level.info ∧ Level.error ≤ Level.info)) ∧
     (Sink.stderr ∈ deliversTo (NewJSONLogger []).1 Level.info →
       Sink.stderr ∈ deliversTo (NewJSONLogger []).1 Level.warn)) ∧
    ((Sink.stdout ∈ deliversTo (NewJSONLogger []).1 Level.info ↔
        (Level.info ≤ Level.info ∧ Level.info < Level.error)) ∧
     (Level.warn < Level.error →
       Sink.stdout ∈ deliversTo (NewJSONLogger []).1 Level.info →
       Sink.stdout ∈ deliversTo (NewJSONLogger []).1 Level.warn)) :=
  c4_amended_monotone [] Level.info Level.info Level.warn rfl rfl (by decide)

/-- C7: the option loop of NewJSONLogger applies options strictly left to
right; the last setter of a singular field (severity floor, time layout)
wins; static field entries accumulate, with the last writer winning on a
key collision and other keys untouched. -/
theorem c7_options_left_to_right (opts : List (option → option)) (o : option)
    (f : option → option) (k v k' tl : String) (hk : k' ≠ k) :
    applyOpts (opts ++ [f]) o = f (applyOpts opts o) ∧
    (applyOpts (opts ++ [WithWarnLevel]) o).level = Level.warn ∧
    (applyOpts (opts ++ [WithTimeLayout tl]) o).timeLayout = tl ∧
    (applyOpts (opts ++ [WithField k v]) o).fields k = some v ∧
    (applyOpts (opts ++ [WithField k v]) o).fields k' = (applyOpts opts o).fields k' ∧
    (NewJSONLogger (opts ++ [WithField k v])).1.fields k = some v := by
  refine ⟨?_, ?_, ?_, ?_, ?_, ?_⟩ <;>
    simp [applyOpts, List.foldl_append, WithWarnLevel, WithTimeLayout, WithField,
      mapAssign, NewJSONLogger, hk]

/-- Witness for C7 at opts = [], keys "a" and "b". -/
theorem c7_options_left_to_right_witness :
    applyOpts ([] ++ [WithDebugLevel]) defaultOption =
      WithDebugLevel (applyOpts [] defaultOption) ∧
    (applyOpts ([] ++ [WithWarnLevel]) defaultOption).level = Level.warn ∧
    (applyOpts ([] ++ [WithTimeLayout "15:04:05"]) defaultOption).timeLayout =
      "15:04:05" ∧
    (applyOpts ([] ++ [WithField "a" "1"]) defaultOption).fields "a" = some "1" ∧
    (applyOpts ([] ++ [WithField "a" "1"]) defaultOption).fields "b" =
      (applyOpts [] defaultOption).fields "b" ∧
    (NewJSONLogger ([] ++ [WithField "a" "1"])).1.fields "a" = some "1" :=
  c7_options_left_to_right [] defaultOption WithDebugLevel "a" "1" "b"
    "15:04:05" (by decide)

/-- C3 counterexample: WithFileRotationP accepts no rotation parameters
from the caller; two distinct calls produce the identical fixed policy
(MaxSize 128, MaxBackups 300, MaxAge 30, Compress true), which differs
from the policy the spec's fileSinkRotate interface would build from the
caller-supplied tuple (1, 2, 3, false), so distinct parameter tuples
cannot yield differing policies. -/
theorem c3_counterexample :
    ∃ f g, WithFileRotationP okFS "x.log" = Except.ok f ∧
      WithFileRotationP okFS "y.log" = Except.ok g ∧
      ∃ cf cg, (f defaultOption).file = some (FileWriter.lumberjack cf) ∧
        (g defaultOption).file = some (FileWriter.lumberjack cg) ∧
        rotationParams cf = rotationParams cg ∧
        rotationParams cf = (128, 300, 30, true) ∧
        rotationParams cf ≠ rotationParams (fileSinkRotateSpec "x.log" 1 2 3 false) := by
  refine ⟨_, _, rfl, rfl, _, _, rfl, rfl, rfl, rfl, by decide⟩

/-- C3 amended: the rotating-file option accepts only the file path from
the caller; every successful WithFileRotationP stores a lumberjack writer
with the fixed policy MaxSize 128 MB, MaxBackups 300, MaxAge 30 days,
LocalTime true, Compress true, regardless of any intended tuple. -/
theorem c3_amended_fixed_rotation (fs : FS) (file : String) (f : option → option)
    (o : option) (h : WithFileRotationP fs file = Except.ok f) :
    (f o).file = some (FileWriter.lumberjack
      { filename := file
        maxSize := 128
        maxBackups := 300
        maxAge := 30
        localTime := true
        compress := true }) := by
  by_cases hm : fs.mkdirAllOk (fs.dir file) = false
  · simp [WithFileRotationP, hm] at h
  · simp [WithFileRotationP, hm] at h
    rw [← h]

/-- Witness for the amended C3 at okFS and path "x.log". -/
theorem c3_amended_fixed_rotation_witness :
    ((fun opt => { opt with file := some (FileWriter.lumberjack
        { filename := "x.log"
          maxSize := 128
          maxBackups := 300
          maxAge := 30
          localTime := true
          compress := true }) } : option → option) defaultOption).file =
      some (FileWriter.lumberjack
        { filename := "x.log"
          maxSize := 128
          maxBackups := 300
          maxAge := 30
          localTime := true
          compress := true }) :=
  c3_amended_fixed_rotation okFS "x.log" _ defaultOption rfl

/-- C2: Close blocks while no registered signal has been delivered to the
hook's channel; once one has been, Close receives exactly one signal,
stops further signal delivery before running any callback, and then runs
the callbacks in exactly the given order. -/
theorem c2_close_order {Sig : Type} [DecidableEq Sig] (h : hookT Sig) (s : Sig) (n : Nat)
    (hidle : h.ctx = none) :
    Close h n = none ∧
    (s ∈ h.registered →
      ∃ tr, Close (deliver h s) n = some tr ∧
        tr.take 2 = [Event.recv s, Event.stopNotify] ∧
        tr.drop 2 = (List.range n).map Event.callback ∧
        tr.countP Event.isRecv = 1) := by
  constructor
  · simp [Close, hidle]
  · intro hreg
    have hdel : (deliver h s).ctx = some s := by
      simp [deliver, hreg, hidle]
    refine ⟨Event.recv s :: Event.stopNotify ::
        ((List.range n).foldl (fun tr i => tr ++ [Event.callback i]) []), ?_, rfl, ?_, ?_⟩
    · simp [Close, hdel]
    · simp [foldl_push_eq_append_map]
    · simp [List.countP_cons, Event.isRecv, foldl_push_eq_append_map, List.countP_map,
        Function.comp]

/-- Witness for C2 on the default hook (SIGINT = 0, SIGTERM = 1) with two
callbacks. -/
theorem c2_close_order_witness :
    Close (NewHook 0 1 : hookT Nat) 2 = none ∧
    (0 ∈ (NewHook 0 1 : hookT Nat).registered →
      ∃ tr, Close (deliver (NewHook 0 1 : hookT Nat) 0) 2 = some tr ∧
        tr.take 2 = [Event.recv 0, Event.stopNotify] ∧
        tr.drop 2 = (List.range 2).map Event.callback ∧
        tr.countP Event.isRecv = 1) :=
  c2_close_order (NewHook 0 1) 0 2 rfl

end GoGinApi
